import Mathlib

/-!
Shallow embedding of the cart / order / payment core of the online-cinema
backend (src/src/router/{shopping_cart,orders,payments}.py over the models in
src/src/database/models/{shopping_cart,orders,payments}.py).

Conventions of the embedding:
- the relational database is a record of lists of rows; every route handler
  becomes a function from a state and its arguments to the pair of the
  resulting state and an Except value (the error branches return the input
  state unchanged, matching a rolled-back transaction);
- monetary amounts are DECIMAL(10, 2) in the source and are modelled as
  natural numbers (fixed-point, in cents);
- ORM relationship access (cart.items) is modelled as the corresponding join
  on the foreign key;
- the source status enums inherit from str. OrderStatusEnum has UPPERCASE
  values (pending = "PENDING", ...), so a hydrated member compared with a
  lowercase literal such as "pending" compares unequal; the status columns
  are modelled as the runtime string contents, and the commit functions below
  model the sqlalchemy Enum column validation (a written value is accepted
  iff it is a member or a member name, and a stored row rehydrates to the
  member, hence to its value string);
- scalar_one_or_none is modelled exactly: zero rows give none, one row gives
  some, several rows raise (MultipleResultsFound);
- Python truthiness on an optional integer (if not payment_id, or the bare
  if on a scalar) treats both missing and zero as false, and is modelled so.
-/

namespace OnlineCinema

/-- database/models/movies.py class Movie: the fields the cart and order flow
reads (id, name, price); price is DECIMAL(10, 2), modelled in cents. -/
structure Movie where
  id : Nat
  name : String
  price : Nat
deriving DecidableEq, Repr

/-- database/models/shopping_cart.py class Cart: id, user_id (unique). -/
structure Cart where
  id : Nat
  user_id : Nat
deriving DecidableEq, Repr

/-- database/models/shopping_cart.py class CartItem: id, cart_id, movie_id. -/
structure CartItem where
  id : Nat
  cart_id : Nat
  movie_id : Nat
deriving DecidableEq, Repr

/-- database/models/orders.py class OrderStatusEnum(str, Enum):
pending = "PENDING", paid = "PAID", canceled = "CANCELED". -/
inductive OrderStatusEnum
  | pending
  | paid
  | canceled
deriving DecidableEq, Repr

/-- the str content of an OrderStatusEnum member (the enum inherits str, so
the member is this string for comparison purposes): the UPPERCASE value. -/
def OrderStatusEnum.value : OrderStatusEnum → String
  | .pending => "PENDING"
  | .paid => "PAID"
  | .canceled => "CANCELED"

/-- the member name (sqlalchemy persists the name of the member): lowercase. -/
def OrderStatusEnum.memberName : OrderStatusEnum → String
  | .pending => "pending"
  | .paid => "paid"
  | .canceled => "canceled"

/-- database/models/orders.py class Order: id, user_id, status, total_amount.
The status field holds the runtime string content (a hydrated row holds the
member, whose string content is the uppercase value). -/
structure Order where
  id : Nat
  user_id : Nat
  status : String
  total_amount : Nat
deriving DecidableEq, Repr

/-- database/models/orders.py class OrderItem: id, order_id, movie_id,
price_at_order. -/
structure OrderItem where
  id : Nat
  order_id : Nat
  movie_id : Nat
  price_at_order : Nat
deriving DecidableEq, Repr

/-- database/models/payments.py class Payment: id, order_id, user_id, status,
amount. The models PaymentStatusEnum has members successful, cancelled,
refunded only (there is no pending member in the models enum). -/
structure Payment where
  id : Nat
  order_id : Nat
  user_id : Nat
  status : String
  amount : Nat
deriving DecidableEq, Repr

/-- The relational database: one list of rows per table. -/
structure DBState where
  movies : List Movie
  carts : List Cart
  cartItems : List CartItem
  orders : List Order
  orderItems : List OrderItem
  payments : List Payment
deriving DecidableEq, Repr

/-- Errors a route can produce: an HTTPException with code and detail, a
sqlalchemy LookupError from Enum column validation (surfacing as HTTP 500),
a Python AttributeError (HTTP 500), or MultipleResultsFound from
scalar_one_or_none on several rows (HTTP 500). -/
inductive ApiError
  | http (code : Nat) (detail : String)
  | lookupError (value : String)
  | attributeError (attr : String)
  | multipleResults
deriving DecidableEq, Repr

/-- scalar_one_or_none: none on zero rows, the row on one, an error on more. -/
def scalarOneOrNone {α : Type} : List α → Except ApiError (Option α)
  | [] => .ok none
  | [a] => .ok (some a)
  | _ :: _ :: _ => .error .multipleResults

/-- Autoincrement primary key: one more than the largest id in use. -/
def nextId (ids : List Nat) : Nat := ids.foldr max 0 + 1

/-- sqlalchemy Enum(OrderStatusEnum) column validation and rehydration: a
written value is accepted iff it is a member (content = uppercase value) or a
member name (lowercase); the stored name rehydrates to the member, whose str
content is the uppercase value. none models the LookupError raised on commit
for any other string. -/
def orderStatusCommit (v : String) : Option String :=
  if v = "pending" ∨ v = "PENDING" then some "PENDING"
  else if v = "paid" ∨ v = "PAID" then some "PAID"
  else if v = "canceled" ∨ v = "CANCELED" then some "CANCELED"
  else none

/-- sqlalchemy Enum(PaymentStatusEnum) column validation for the models enum
of database/models/payments.py, whose members are successful, cancelled,
refunded (names and values coincide; there is no pending member and no
one-l canceled member). -/
def paymentStatusCommit (v : String) : Option String :=
  if v = "successful" then some "successful"
  else if v = "cancelled" then some "cancelled"
  else if v = "refunded" then some "refunded"
  else none

/-- select(Cart).where(Cart.user_id == user.id): user_id is unique, so at
most one row exists and find? is scalar_one_or_none. -/
def userCart (st : DBState) (userId : Nat) : Option Cart :=
  st.carts.find? (fun c => c.user_id == userId)

/-- The items relationship of a Cart: cart_items rows with this cart_id. -/
def cartItemsOf (st : DBState) (cartId : Nat) : List CartItem :=
  st.cartItems.filter (fun it => it.cart_id == cartId)

/-- select(OrderItem.movie_id).join(Order).where(Order.user_id == user.id,
OrderItem.movie_id == movie_id) of shopping_cart.py add_to_cart: the
movie_id column of every order item of an order of this user that matches
the given movie. -/
def purchasedRows (st : DBState) (userId movieId : Nat) : List Nat :=
  (st.orderItems.filter (fun it =>
    it.movie_id == movieId &&
    st.orders.any (fun o => o.id == it.order_id && o.user_id == userId))).map
    (fun it => it.movie_id)

/-- select(OrderItem.movie_id).join(Order).where(Order.user_id == user.id,
OrderItem.movie_id.in_(movie_ids)) of orders.py create_order_from_cart. -/
def purchasedAmong (st : DBState) (userId : Nat) (movieIds : List Nat) : List Nat :=
  (st.orderItems.filter (fun it =>
    st.orders.any (fun o => o.id == it.order_id && o.user_id == userId) &&
    movieIds.contains it.movie_id)).map (fun it => it.movie_id)

/-- select(OrderItem.movie_id).join(Order).where(Order.user_id == user.id)
of orders.py create_order: every movie_id this user has an order item for. -/
def allPurchased (st : DBState) (userId : Nat) : List Nat :=
  (st.orderItems.filter (fun it =>
    st.orders.any (fun o => o.id == it.order_id && o.user_id == userId))).map
    (fun it => it.movie_id)

/-- The movie_id list of the cart of the user (empty when no cart exists). -/
def cartMovieIds (st : DBState) (userId : Nat) : List Nat :=
  match userCart st userId with
  | none => []
  | some cart => (cartItemsOf st cart.id).map (fun it => it.movie_id)

/-- The available ids of create_order_from_cart: the cart movie ids minus the
already purchased ones. -/
def availableIds (st : DBState) (userId : Nat) : List Nat :=
  (cartMovieIds st userId).filter
    (fun mid => !(purchasedAmong st userId (cartMovieIds st userId)).contains mid)

/-- The filtered ids of create_order: the selected ids minus the already
purchased ones. -/
def filteredIds (st : DBState) (userId : Nat) (movieIds : List Nat) : List Nat :=
  movieIds.filter (fun mid => !(allPurchased st userId).contains mid)

/-- select(Movie).where(Movie.id.in_(ids)). -/
def moviesByIds (st : DBState) (ids : List Nat) : List Movie :=
  st.movies.filter (fun m => ids.contains m.id)

/-- The OrderItem rows inserted for a new order: one per resolved movie, with
the price snapshotted into price_at_order. -/
def mkOrderItems (base oid : Nat) (movies : List Movie) : List OrderItem :=
  movies.enum.map (fun p =>
    { id := base + p.1, order_id := oid, movie_id := p.2.id,
      price_at_order := p.2.price })

/-- router/shopping_cart.py add_to_cart: rejects an already purchased movie
(Python truthiness on the scalar: a movie_id of 0 would read as false),
creates the cart lazily, rejects a movie already in the cart, otherwise
inserts one CartItem. Error branches leave the state unchanged. -/
def add_to_cart (st : DBState) (userId movieId : Nat) :
    DBState × Except ApiError String :=
  match scalarOneOrNone (purchasedRows st userId movieId) with
  | .error e => (st, .error e)
  | .ok purchased =>
    if purchased.getD 0 ≠ 0 then
      (st, .error (.http 400 "Movie already purchased"))
    else
      let stCart :=
        match userCart st userId with
        | some c => (st, c)
        | none =>
          let c : Cart := { id := nextId (st.carts.map Cart.id), user_id := userId }
          ({ st with carts := st.carts ++ [c] }, c)
      if (cartItemsOf stCart.1 stCart.2.id).any (fun it => it.movie_id == movieId) then
        (st, .error (.http 400 "Movie already in cart"))
      else
        let item : CartItem :=
          { id := nextId (stCart.1.cartItems.map CartItem.id),
            cart_id := stCart.2.id, movie_id := movieId }
        ({ stCart.1 with cartItems := stCart.1.cartItems ++ [item] },
          .ok "Movie added to cart")

/-- router/shopping_cart.py remove_from_cart: select(CartItem).join(Cart)
.where(Cart.user_id == user.id, CartItem.movie_id == movie_id); on no row it
raises HTTPException(400, "Movie not in cart"); otherwise deletes the row. -/
def remove_from_cart (st : DBState) (userId movieId : Nat) :
    DBState × Except ApiError String :=
  let rows := st.cartItems.filter (fun it =>
    it.movie_id == movieId &&
    st.carts.any (fun c => c.id == it.cart_id && c.user_id == userId))
  match scalarOneOrNone rows with
  | .error e => (st, .error e)
  | .ok none => (st, .error (.http 400 "Movie not in cart"))
  | .ok (some item) =>
    ({ st with cartItems := st.cartItems.filter (fun it => it.id ≠ item.id) },
      .ok "Movie removed from cart")

/-- router/shopping_cart.py clear_cart: deletes every CartItem joined to the
cart of the user; a no-op on an empty or missing cart. -/
def clear_cart (st : DBState) (userId : Nat) : DBState × Except ApiError String :=
  ({ st with cartItems := st.cartItems.filter (fun it =>
      !(st.carts.any (fun c => c.id == it.cart_id && c.user_id == userId))) },
    .ok "Cart cleared")

/-- router/orders.py create_order_from_cart: empty or missing cart gives 400
Cart is empty; already purchased cart movies are excluded and an empty
remainder gives 400 All movies already purchased; the remaining ids are
resolved against the movies table (with no emptiness check on the result),
the prices of the resolved movies are snapshotted into OrderItems and summed
into total_amount, the order is created with status OrderStatusEnum.paid,
and the cart items are deleted, all committed together. -/
def create_order_from_cart (st : DBState) (userId : Nat) :
    DBState × Except ApiError (Order × List Movie) :=
  match userCart st userId with
  | none => (st, .error (.http 400 "Cart is empty"))
  | some cart =>
    if (cartItemsOf st cart.id).isEmpty then
      (st, .error (.http 400 "Cart is empty"))
    else if (availableIds st userId).isEmpty then
      (st, .error (.http 400 "All movies already purchased"))
    else
      let movies := moviesByIds st (availableIds st userId)
      let total := (movies.map (fun m => m.price)).sum
      let oid := nextId (st.orders.map (fun o => o.id))
      let newOrder : Order :=
        { id := oid, user_id := userId,
          status := OrderStatusEnum.value .paid, total_amount := total }
      let newItems := mkOrderItems (nextId (st.orderItems.map (fun it => it.id))) oid movies
      ({ st with
          orders := st.orders ++ [newOrder],
          orderItems := st.orderItems ++ newItems,
          cartItems := st.cartItems.filter (fun it => it.cart_id ≠ cart.id) },
        .ok (newOrder, movies))

/-- router/orders.py create_order (the explicit selection path): empty list
gives 400 No movies selected.; already purchased ids are excluded and an
empty remainder gives 400 All movies already purchased.; when none of the
remaining ids resolves to a movie row it gives 404 No available movies
found.; otherwise the order is created with status OrderStatusEnum.pending
and one price-snapshotted OrderItem per resolved movie. -/
def create_order (st : DBState) (userId : Nat) (movieIds : List Nat) :
    DBState × Except ApiError (Order × List Movie) :=
  if movieIds.isEmpty then
    (st, .error (.http 400 "No movies selected."))
  else
    let filtered := filteredIds st userId movieIds
    if filtered.isEmpty then
      (st, .error (.http 400 "All movies already purchased."))
    else
      let movies := moviesByIds st filtered
      if movies.isEmpty then
        (st, .error (.http 404 "No available movies found."))
      else
        let total := (movies.map (fun m => m.price)).sum
        let oid := nextId (st.orders.map (fun o => o.id))
        let newOrder : Order :=
          { id := oid, user_id := userId,
            status := OrderStatusEnum.value .pending, total_amount := total }
        let newItems := mkOrderItems (nextId (st.orderItems.map (fun it => it.id))) oid movies
        ({ st with
            orders := st.orders ++ [newOrder],
            orderItems := st.orderItems ++ newItems },
          .ok (newOrder, movies))

/-- router/orders.py cancel_order: no order with this id owned by the user
gives 404 Order not found; a status field different from the literal
"pending" gives 400 Cannot cancel paid/canceled order (note that a hydrated
pending order carries the member string "PENDING", which is different from
"pending"); otherwise the status is assigned the string "canceled", which
the Enum column accepts as a member name and rehydrates to "CANCELED". -/
def cancel_order (st : DBState) (userId orderId : Nat) :
    DBState × Except ApiError Unit :=
  match st.orders.find? (fun o => o.id == orderId && o.user_id == userId) with
  | none => (st, .error (.http 404 "Order not found"))
  | some order =>
    if order.status ≠ "pending" then
      (st, .error (.http 400 "Cannot cancel paid/canceled order"))
    else
      match orderStatusCommit "canceled" with
      | none => (st, .error (.lookupError "canceled"))
      | some s =>
        ({ st with orders := st.orders.map (fun o =>
            if o.id == order.id then { o with status := s } else o) },
          .ok ())

/-- router/payments.py initiate_payment: no order with this id owned by the
user gives 404 Order not found; a status field different from the literal
"pending" gives 400 Cannot initiate payment for paid/canceled order (again,
a hydrated pending order carries "PENDING"); an existing pending payment for
the order gives 400 Payment already initiated; the remaining branch
constructs Payment(amount = order.total_price, ...) and the Order model
defines total_amount but no attribute total_price, so it raises
AttributeError before anything is written. -/
def initiate_payment (st : DBState) (userId orderId : Nat) :
    DBState × Except ApiError Payment :=
  match st.orders.find? (fun o => o.id == orderId && o.user_id == userId) with
  | none => (st, .error (.http 404 "Order not found"))
  | some order =>
    if order.status ≠ "pending" then
      (st, .error (.http 400 "Cannot initiate payment for paid/canceled order"))
    else if st.payments.any (fun p => p.order_id == orderId && p.status == "pending") then
      (st, .error (.http 400 "Payment already initiated"))
    else
      (st, .error (.attributeError "total_price"))

/-- The parsed JSON body of the webhook: payload.get("payment_id") and
payload.get("status"), each possibly missing. -/
structure WebhookPayload where
  payment_id : Option Nat
  status : Option String
deriving DecidableEq, Repr

/-- router/payments.py mock_payment_webhook: a missing or zero payment_id or
a status outside the literal set successful, canceled, refunded gives 400
Missing or invalid payment_id or status; a missing payment gives 404 Payment
not found; otherwise the raw status string is assigned and committed, where
the models PaymentStatusEnum column accepts successful, cancelled, refunded
only, so the accepted one-l spelling canceled raises LookupError at commit
and the transaction rolls back. -/
def mock_payment_webhook (st : DBState) (payload : WebhookPayload) :
    DBState × Except ApiError String :=
  match payload.status with
  | none => (st, .error (.http 400 "Missing or invalid payment_id or status"))
  | some s =>
    if payload.payment_id.getD 0 == 0 ∨
        ¬(s = "successful" ∨ s = "canceled" ∨ s = "refunded") then
      (st, .error (.http 400 "Missing or invalid payment_id or status"))
    else
      match st.payments.find? (fun p => some p.id == payload.payment_id) with
      | none => (st, .error (.http 404 "Payment not found"))
      | some payment =>
        match paymentStatusCommit s with
        | none => (st, .error (.lookupError s))
        | some s2 =>
          ({ st with payments := st.payments.map (fun p =>
              if p.id == payment.id then { p with status := s2 } else p) },
            .ok "Payment status updated")

/-- An arbitrary later change of the movies table (the effect the setattr
loop of router/movies.py update_movie aims at, covering any price change):
the movies rows are replaced, every other table is untouched. -/
def setMovies (st : DBState) (movies : List Movie) : DBState :=
  { st with movies := movies }

/-- One call of the modelled API surface, for statements quantifying over
everything the system can do to a state. -/
inductive ApiCall
  | addToCart (userId movieId : Nat)
  | removeFromCart (userId movieId : Nat)
  | clearCart (userId : Nat)
  | fromCart (userId : Nat)
  | fromSelection (userId : Nat) (movieIds : List Nat)
  | cancel (userId orderId : Nat)
  | initiate (userId orderId : Nat)
  | webhook (payload : WebhookPayload)
  | updateMovies (movies : List Movie)

/-- The state after one API call (the result value is dropped). -/
def applyCall (st : DBState) : ApiCall → DBState
  | .addToCart u m => (add_to_cart st u m).1
  | .removeFromCart u m => (remove_from_cart st u m).1
  | .clearCart u => (clear_cart st u).1
  | .fromCart u => (create_order_from_cart st u).1
  | .fromSelection u ids => (create_order st u ids).1
  | .cancel u oid => (cancel_order st u oid).1
  | .initiate u oid => (initiate_payment st u oid).1
  | .webhook p => (mock_payment_webhook st p).1
  | .updateMovies ms => setMovies st ms

/-- The order items of one order, and the sum of their snapshotted prices. -/
def orderItemsFor (st : DBState) (oid : Nat) : List OrderItem :=
  st.orderItems.filter (fun it => it.order_id == oid)

/-- Sum of price_at_order over the items of one order. -/
def sumPriceAtOrder (st : DBState) (oid : Nat) : Nat :=
  ((orderItemsFor st oid).map (fun it => it.price_at_order)).sum

/-- Referential wellformedness of order items: every order item points at an
existing order row (the foreign key order_items.order_id). -/
def OrderRefsWF (st : DBState) : Prop :=
  ∀ it ∈ st.orderItems, ∃ o ∈ st.orders, it.order_id = o.id

/-! Concrete states used by the claim theorems and witnesses. -/

/-- An order owned by user 1, hydrated from the database with status
pending: the status field holds the member, whose string content is the
uppercase value "PENDING". -/
def pendingOrder1 : Order :=
  { id := 1, user_id := 1, status := OrderStatusEnum.value OrderStatusEnum.pending,
    total_amount := 1000 }

/-- A database with exactly one order: the pending order of user 1. -/
def stPending : DBState :=
  { movies := [], carts := [], cartItems := [], orders := [pendingOrder1],
    orderItems := [], payments := [] }

/-- A pending payment row for order 1 (as the spec says initiate would
create it). -/
def pendingPayment1 : Payment :=
  { id := 1, order_id := 1, user_id := 1, status := "pending", amount := 1000 }

/-- The pending order of user 1 together with a pending payment for it. -/
def stPendingWithPayment : DBState :=
  { stPending with payments := [pendingPayment1] }

/-- A database with one stored payment with status successful. -/
def stOnePayment : DBState :=
  { movies := [], carts := [], cartItems := [], orders := [], orderItems := [],
    payments := [{ id := 9, order_id := 3, user_id := 1, status := "successful",
                   amount := 1000 }] }

/-- A user with a cart that is empty: no cart item rows at all. -/
def stEmptyCart : DBState :=
  { movies := [{ id := 1, name := "A", price := 500 }],
    carts := [{ id := 1, user_id := 1 }], cartItems := [], orders := [],
    orderItems := [], payments := [] }

/-- A catalog of two movies, a cart of user 1 holding movie 1. -/
def stTwoMovies : DBState :=
  { movies := [{ id := 1, name := "A", price := 500 }, { id := 2, name := "B", price := 700 }],
    carts := [{ id := 1, user_id := 1 }],
    cartItems := [{ id := 1, cart_id := 1, movie_id := 1 }],
    orders := [], orderItems := [], payments := [] }

/-- User 1 has purchased movie 2 (one paid order with one order item). -/
def stPurchased : DBState :=
  { movies := [{ id := 2, name := "B", price := 700 }],
    carts := [{ id := 1, user_id := 1 }],
    cartItems := [],
    orders := [{ id := 1, user_id := 1, status := "PAID", total_amount := 700 }],
    orderItems := [{ id := 1, order_id := 1, movie_id := 2, price_at_order := 700 }],
    payments := [] }

/-- The cart of user 1 holds movie id 9, which resolves to no catalog row. -/
def stGhostMovie : DBState :=
  { movies := [], carts := [{ id := 1, user_id := 1 }],
    cartItems := [{ id := 1, cart_id := 1, movie_id := 9 }],
    orders := [], orderItems := [], payments := [] }

/-! Claim theorems. -/

/-- C1: the claim says cancel(u, o.id) succeeds on a pending order owned by
u and sets its status to canceled. On the code it does not: the hydrated
pending status is the str-enum member with content "PENDING", the handler
compares it against the lowercase literal "pending", so the pending order is
rejected with 400 Cannot cancel paid/canceled order and the state is
unchanged. -/
theorem C1_cancel_pending_is_rejected :
    pendingOrder1.status = OrderStatusEnum.value OrderStatusEnum.pending ∧
    cancel_order stPending 1 1 =
      (stPending, Except.error (ApiError.http 400 "Cannot cancel paid/canceled order")) :=
  ⟨rfl, rfl⟩

/-- C2: the claim says initiate(u, o.id) on a pending order with no pending
payment creates a pending Payment with amount o.total_amount. On the code it
fails with 400 Cannot initiate payment for paid/canceled order, because the
hydrated pending status "PENDING" is compared against the literal "pending";
independently, the success branch reads order.total_price, an attribute the
Order model does not define, and the models PaymentStatusEnum has no pending
member to store. -/
theorem C2_initiate_pending_is_rejected :
    stPending.payments = [] ∧
    initiate_payment stPending 1 1 =
      (stPending,
       Except.error (ApiError.http 400 "Cannot initiate payment for paid/canceled order")) :=
  ⟨rfl, rfl⟩

/-- C3: the claim says a second initiate while a pending Payment exists for
the order always fails with PaymentAlreadyInitiated. On the code, even with
a pending payment row present for the pending order, the call fails with the
earlier status guard 400 Cannot initiate payment for paid/canceled order
(and the first call can never have created the payment to begin with). -/
theorem C3_second_initiate_gives_wrong_error :
    initiate_payment stPendingWithPayment 1 1 =
      (stPendingWithPayment,
       Except.error (ApiError.http 400 "Cannot initiate payment for paid/canceled order")) ∧
    ApiError.http 400 "Cannot initiate payment for paid/canceled order" ≠
      ApiError.http 400 "Payment already initiated" :=
  ⟨rfl, by decide⟩

/-- C7: the claim says a webhook carrying an accepted status sets the
Payment status to a member of the declared set. The route accepts the one-l
spelling canceled, but the models PaymentStatusEnum defines cancelled, so
the commit raises LookupError (HTTP 500) and the payment row is unchanged. -/
theorem C7_webhook_canceled_fails_commit :
    mock_payment_webhook stOnePayment { payment_id := some 9, status := some "canceled" } =
      (stOnePayment, Except.error (ApiError.lookupError "canceled")) ∧
    paymentStatusCommit "canceled" = none :=
  ⟨rfl, rfl⟩

/-- C8: the claim (and the error taxonomy of the spec, and the repository
test test_remove_from_cart_not_found) says removing a movie that is not in
the cart reports HTTP 404; the code raises HTTPException(400, Movie not in
cart). -/
theorem C8_remove_not_in_cart_gives_400 :
    remove_from_cart stEmptyCart 1 1 =
      (stEmptyCart, Except.error (ApiError.http 400 "Movie not in cart")) :=
  rfl

/-- C9: the two creation paths yield different initial statuses: a
successful create_order_from_cart creates the order with status paid, a
successful create_order creates it with status pending. -/
theorem C9_creation_paths_differ_in_status (st st2 : DBState) (u : Nat)
    (ids : List Nat) (o : Order) (ms : List Movie) :
    (create_order_from_cart st u = (st2, Except.ok (o, ms)) →
      o.status = OrderStatusEnum.value OrderStatusEnum.paid) ∧
    (create_order st u ids = (st2, Except.ok (o, ms)) →
      o.status = OrderStatusEnum.value OrderStatusEnum.pending) := by
  constructor
  · intro h
    unfold create_order_from_cart at h
    split at h
    · simp at h
    · split at h
      · simp at h
      · split at h
        · simp at h
        · simp only [Prod.mk.injEq, Except.ok.injEq] at h
          obtain ⟨-, ho, -⟩ := h
          rw [← ho]
  · intro h
    unfold create_order at h
    split at h
    · simp at h
    · dsimp only at h
      split at h
      · simp at h
      · split at h
        · simp at h
        · simp only [Prod.mk.injEq, Except.ok.injEq] at h
          obtain ⟨-, ho, -⟩ := h
          rw [← ho]

/-- Witness for C9: on the concrete state stTwoMovies the cart path creates
the order with status "PAID" and the selection path with status "PENDING". -/
theorem C9_creation_paths_differ_in_status_witness :
    (Order.mk 1 1 "PAID" 500).status = OrderStatusEnum.value OrderStatusEnum.paid ∧
    (Order.mk 1 1 "PENDING" 700).status = OrderStatusEnum.value OrderStatusEnum.pending :=
  ⟨(C9_creation_paths_differ_in_status stTwoMovies
      (create_order_from_cart stTwoMovies 1).1 1 [2]
      (Order.mk 1 1 "PAID" 500) [Movie.mk 1 "A" 500]).1 rfl,
   (C9_creation_paths_differ_in_status stTwoMovies
      (create_order stTwoMovies 1 [2]).1 1 [2]
      (Order.mk 1 1 "PENDING" 700) [Movie.mk 2 "B" 700]).2 rfl⟩

/-- Every row of the already-purchased query of add_to_cart carries the
queried movie id (the query selects the movie_id column it filters on). -/
theorem purchasedRows_mem (st : DBState) (u m x : Nat)
    (hx : x ∈ purchasedRows st u m) : x = m := by
  unfold purchasedRows at hx
  simp only [List.mem_map, List.mem_filter, Bool.and_eq_true, beq_iff_eq] at hx
  obtain ⟨it, ⟨-, h1, -⟩, he⟩ := hx
  rw [← he]
  exact h1

/-- C6: if some order item for movie m is linked to an order of user u, then
add_to_cart rejects m with 400 Movie already purchased and changes nothing,
regardless of the cart state. The hypotheses mirror the reachable states:
movie ids are positive (serial primary keys, and a zero id would slip past
the Python truthiness test on the scalar), and at most one purchase row per
user and movie exists (both creation paths exclude already purchased ids, so
scalar_one_or_none never sees two rows). -/
theorem C6_add_already_purchased_rejected (st : DBState) (u m : Nat)
    (hm : 0 < m)
    (hone : (purchasedRows st u m).length ≤ 1)
    (hne : purchasedRows st u m ≠ []) :
    add_to_cart st u m =
      (st, Except.error (ApiError.http 400 "Movie already purchased")) := by
  have hrows : purchasedRows st u m = [m] := by
    rcases hr : purchasedRows st u m with - | ⟨a, - | ⟨b, t⟩⟩
    · exact absurd hr hne
    · have ha : a = m := purchasedRows_mem st u m a (by rw [hr]; exact List.mem_singleton_self a)
      rw [ha]
    · rw [hr] at hone
      simp [List.length_cons] at hone
  unfold add_to_cart
  rw [hrows]
  simp only [scalarOneOrNone, Option.getD_some]
  rw [if_pos hm.ne']

/-- Witness for C6: user 1 has purchased movie 2, so adding movie 2 to the
cart is rejected and the state is unchanged. -/
theorem C6_add_already_purchased_rejected_witness :
    0 < 2 ∧ purchasedRows stPurchased 1 2 ≠ [] ∧
    add_to_cart stPurchased 1 2 =
      (stPurchased, Except.error (ApiError.http 400 "Movie already purchased")) :=
  ⟨by decide, by decide,
   C6_add_already_purchased_rejected stPurchased 1 2 (by decide) (by decide) (by decide)⟩

/-- Every order item inserted for a new order carries the id of that order. -/
theorem mkOrderItems_order_id (base oid : Nat) (ms : List Movie) :
    ∀ it ∈ mkOrderItems base oid ms, it.order_id = oid := by
  intro it hit
  unfold mkOrderItems at hit
  simp only [List.mem_map] at hit
  obtain ⟨p, -, he⟩ := hit
  rw [← he]

/-- The inserted order items list one movie id each, in the order of the
resolved movies. -/
theorem mkOrderItems_movie_ids (base oid : Nat) (ms : List Movie) :
    (mkOrderItems base oid ms).map (fun it => it.movie_id) =
      ms.map (fun m => m.id) := by
  unfold mkOrderItems
  rw [List.map_map]
  have h2 : ms.map (fun m => m.id) = (ms.enum.map Prod.snd).map (fun m => m.id) := by
    rw [List.enum_map_snd]
  rw [h2, List.map_map]
  rfl

/-- The snapshotted prices of the inserted order items are exactly the
prices of the resolved movies. -/
theorem mkOrderItems_prices (base oid : Nat) (ms : List Movie) :
    (mkOrderItems base oid ms).map (fun it => it.price_at_order) =
      ms.map (fun m => m.price) := by
  unfold mkOrderItems
  rw [List.map_map]
  have h2 : ms.map (fun m => m.price) = (ms.enum.map Prod.snd).map (fun m => m.price) := by
    rw [List.enum_map_snd]
  rw [h2, List.map_map]
  rfl

/-- C5: create_order_from_cart is atomic. Every error outcome leaves the
database exactly as it was, and every success outcome is exactly the input
database plus the new order row, plus one order item per resolved movie all
belonging to that order, minus the cart items of the cart of the user, all
in one committed step. -/
theorem C5_create_from_cart_atomic (st st2 : DBState) (u : Nat) :
    (∀ e, create_order_from_cart st u = (st2, Except.error e) → st2 = st) ∧
    (∀ o ms, create_order_from_cart st u = (st2, Except.ok (o, ms)) →
      ∃ cart, userCart st u = some cart ∧
        ∃ newItems : List OrderItem,
          (∀ it ∈ newItems, it.order_id = o.id) ∧
          newItems.map (fun it => it.movie_id) = ms.map (fun m => m.id) ∧
          st2 = { st with
              orders := st.orders ++ [o],
              orderItems := st.orderItems ++ newItems,
              cartItems := st.cartItems.filter (fun it => it.cart_id ≠ cart.id) }) := by
  constructor
  · intro e h
    unfold create_order_from_cart at h
    split at h
    · injection h with h1 h2
      exact h1.symm
    · split at h
      · injection h with h1 h2
        exact h1.symm
      · split at h
        · injection h with h1 h2
          exact h1.symm
        · injection h with h1 h2
          exact Except.noConfusion h2
  · intro o ms h
    unfold create_order_from_cart at h
    split at h
    · injection h with h1 h2
      exact Except.noConfusion h2
    · rename_i cart heq
      split at h
      · injection h with h1 h2
        exact Except.noConfusion h2
      · split at h
        · injection h with h1 h2
          exact Except.noConfusion h2
        · injection h with h1 h2
          injection h2 with h3
          injection h3 with h4 h5
          subst h4
          subst h5
          refine ⟨cart, heq, _, ?_, ?_, h1.symm⟩
          · exact mkOrderItems_order_id _ _ _
          · exact mkOrderItems_movie_ids _ _ _

/-- Witness for C5: on stTwoMovies the checkout commits the order, its one
order item and the cart clearing together. -/
theorem C5_create_from_cart_atomic_witness :
    ∃ cart, userCart stTwoMovies 1 = some cart ∧
      ∃ newItems : List OrderItem,
        (∀ it ∈ newItems, it.order_id = (Order.mk 1 1 "PAID" 500).id) ∧
        newItems.map (fun it => it.movie_id) = [Movie.mk 1 "A" 500].map (fun m => m.id) ∧
        (create_order_from_cart stTwoMovies 1).1 =
          { stTwoMovies with
              orders := stTwoMovies.orders ++ [Order.mk 1 1 "PAID" 500],
              orderItems := stTwoMovies.orderItems ++ newItems,
              cartItems := stTwoMovies.cartItems.filter (fun it => it.cart_id ≠ cart.id) } :=
  (C5_create_from_cart_atomic stTwoMovies (create_order_from_cart stTwoMovies 1).1 1).2
    (Order.mk 1 1 "PAID" 500) [Movie.mk 1 "A" 500] rfl

/-- When the user has a cart, the cart movie ids are the movie ids of the
items of that cart. -/
theorem cartMovieIds_some (st : DBState) (u : Nat) (cart : Cart)
    (h : userCart st u = some cart) :
    cartMovieIds st u = (cartItemsOf st cart.id).map (fun it => it.movie_id) := by
  unfold cartMovieIds
  rw [h]

/-- When the user has no cart, the cart movie ids are empty. -/
theorem cartMovieIds_none (st : DBState) (u : Nat) (h : userCart st u = none) :
    cartMovieIds st u = [] := by
  unfold cartMovieIds
  rw [h]

/-- C10: the cart checkout path performs no existence check on the resolved
movies: whenever the cart holds at least one not-already-purchased movie id,
it succeeds, the order is built from the resolved movies only, total_amount
sums only their prices, and when no id resolves the order is created with
total 0 and no order items; the selection path instead fails with 404 No
available movies found. when none of the remaining ids resolves. -/
theorem C10_from_cart_skips_unresolved_ids (st : DBState) (u : Nat) (ids : List Nat) :
    (availableIds st u ≠ [] →
      ∃ o : Order,
        (create_order_from_cart st u).2 =
          Except.ok (o, moviesByIds st (availableIds st u)) ∧
        o.total_amount =
          ((moviesByIds st (availableIds st u)).map (fun m => m.price)).sum ∧
        (moviesByIds st (availableIds st u) = [] →
          o.total_amount = 0 ∧
          (create_order_from_cart st u).1.orderItems = st.orderItems)) ∧
    (¬ids.isEmpty → ¬(filteredIds st u ids).isEmpty →
      moviesByIds st (filteredIds st u ids) = [] →
      create_order st u ids =
        (st, Except.error (ApiError.http 404 "No available movies found."))) := by
  constructor
  · intro hav
    unfold create_order_from_cart
    split
    · rename_i heq
      exfalso
      apply hav
      unfold availableIds
      rw [cartMovieIds_none st u heq]
      rfl
    · rename_i cart heq
      split
      · rename_i hemp
        exfalso
        apply hav
        unfold availableIds
        rw [cartMovieIds_some st u cart heq, List.isEmpty_iff.mp hemp]
        rfl
      · rename_i hemp
        split
        · rename_i hava
          exact absurd (List.isEmpty_iff.mp hava) hav
        · rename_i hava
          refine ⟨_, rfl, rfl, fun hms => ⟨?_, ?_⟩⟩
          · show ((moviesByIds st (availableIds st u)).map (fun m => m.price)).sum = 0
            rw [hms]
            rfl
          · show st.orderItems ++
                mkOrderItems (nextId (st.orderItems.map (fun it => it.id)))
                  (nextId (st.orders.map (fun o => o.id)))
                  (moviesByIds st (availableIds st u)) = st.orderItems
            rw [hms]
            simp [mkOrderItems]
  · intro h1 h2 h3
    unfold create_order
    rw [if_neg h1]
    dsimp only
    rw [if_neg h2, h3]
    rfl

/-- Witness for C10: the cart of user 1 holds the unresolved movie id 9; the
checkout succeeds with total 0 and no order items, while the selection path
on [9] fails with 404. -/
theorem C10_from_cart_skips_unresolved_ids_witness :
    (∃ o : Order,
      (create_order_from_cart stGhostMovie 1).2 =
        Except.ok (o, moviesByIds stGhostMovie (availableIds stGhostMovie 1)) ∧
      o.total_amount =
        ((moviesByIds stGhostMovie (availableIds stGhostMovie 1)).map (fun m => m.price)).sum ∧
      (moviesByIds stGhostMovie (availableIds stGhostMovie 1) = [] →
        o.total_amount = 0 ∧
        (create_order_from_cart stGhostMovie 1).1.orderItems = stGhostMovie.orderItems)) ∧
    create_order stGhostMovie 1 [9] =
      (stGhostMovie, Except.error (ApiError.http 404 "No available movies found.")) :=
  ⟨(C10_from_cart_skips_unresolved_ids stGhostMovie 1 [9]).1 (by decide),
   (C10_from_cart_skips_unresolved_ids stGhostMovie 1 [9]).2 (by decide) (by decide) (by decide)⟩

/-- Every member of a list of ids is bounded by the running maximum. -/
theorem mem_le_foldr_max (x : Nat) (l : List Nat) (h : x ∈ l) :
    x ≤ l.foldr max 0 := by
  induction l with
  | nil => cases h
  | cons a t ih =>
    rw [List.foldr_cons]
    rcases List.mem_cons.mp h with h1 | h1
    · rw [h1]
      exact le_max_left a (t.foldr max 0)
    · exact le_trans (ih h1) (le_max_right a (t.foldr max 0))

/-- Every id already in use is strictly below the next autoincrement id. -/
theorem mem_lt_nextId (x : Nat) (l : List Nat) (h : x ∈ l) : x < nextId l :=
  Nat.lt_succ_of_le (mem_le_foldr_max x l h)

/-- Order items all pointing at other orders contribute nothing to the item
list of one order. -/
theorem filter_order_id_nil (oid : Nat) (items : List OrderItem)
    (h : ∀ it ∈ items, it.order_id ≠ oid) :
    items.filter (fun it => it.order_id == oid) = [] := by
  rw [List.filter_eq_nil_iff]
  intro it hit
  simp only [beq_iff_eq]
  exact h it hit

/-- Order items all pointing at one order are all kept by the filter for
that order. -/
theorem filter_order_id_self (oid : Nat) (items : List OrderItem)
    (h : ∀ it ∈ items, it.order_id = oid) :
    items.filter (fun it => it.order_id == oid) = items := by
  rw [List.filter_eq_self]
  intro it hit
  exact beq_iff_eq.mpr (h it hit)

/-- add_to_cart only touches the carts and cart_items tables. -/
theorem add_to_cart_keeps_orders (st : DBState) (u m : Nat) :
    (add_to_cart st u m).1.orders = st.orders ∧
    (add_to_cart st u m).1.orderItems = st.orderItems := by
  unfold add_to_cart
  split
  · exact ⟨rfl, rfl⟩
  · split
    · exact ⟨rfl, rfl⟩
    · rcases hc : userCart st u with - | c
      · dsimp only
        split
        · exact ⟨rfl, rfl⟩
        · exact ⟨rfl, rfl⟩
      · dsimp only
        split
        · exact ⟨rfl, rfl⟩
        · exact ⟨rfl, rfl⟩

/-- remove_from_cart only touches the cart_items table. -/
theorem remove_from_cart_keeps_orders (st : DBState) (u m : Nat) :
    (remove_from_cart st u m).1.orders = st.orders ∧
    (remove_from_cart st u m).1.orderItems = st.orderItems := by
  unfold remove_from_cart
  dsimp only
  split
  · exact ⟨rfl, rfl⟩
  · exact ⟨rfl, rfl⟩
  · exact ⟨rfl, rfl⟩

/-- initiate_payment never changes the database: every branch of the handler
either raises or, in the would-be success branch, hits the AttributeError on
order.total_price before anything is added. -/
theorem initiate_payment_keeps_state (st : DBState) (u oid : Nat) :
    (initiate_payment st u oid).1 = st := by
  unfold initiate_payment
  split
  · rfl
  · split
    · rfl
    · split
      · rfl
      · rfl

/-- The webhook only touches the payments table. -/
theorem webhook_keeps_orders (st : DBState) (p : WebhookPayload) :
    (mock_payment_webhook st p).1.orders = st.orders ∧
    (mock_payment_webhook st p).1.orderItems = st.orderItems := by
  unfold mock_payment_webhook
  split
  · exact ⟨rfl, rfl⟩
  · split
    · exact ⟨rfl, rfl⟩
    · split
      · exact ⟨rfl, rfl⟩
      · split
        · exact ⟨rfl, rfl⟩
        · exact ⟨rfl, rfl⟩

/-- cancel_order leaves the order_items table alone and either leaves the
orders table alone or rewrites exactly one status field. -/
theorem cancel_order_effect (st : DBState) (u oid : Nat) :
    ((cancel_order st u oid).1.orders = st.orders ∨
      ∃ ord : Order, (cancel_order st u oid).1.orders =
        st.orders.map (fun o =>
          if o.id == ord.id then { o with status := "CANCELED" } else o)) ∧
    (cancel_order st u oid).1.orderItems = st.orderItems := by
  unfold cancel_order
  split
  · exact ⟨Or.inl rfl, rfl⟩
  · rename_i ord heq
    split
    · exact ⟨Or.inl rfl, rfl⟩
    · exact ⟨Or.inr ⟨ord, rfl⟩, rfl⟩

/-- The cart checkout either leaves the database unchanged or appends one
order row and order items all carrying the fresh order id, leaving the
previous orders and order items in place. -/
theorem create_order_from_cart_extends (st : DBState) (u : Nat) :
    ∃ newOrders newItems,
      (create_order_from_cart st u).1.orders = st.orders ++ newOrders ∧
      (create_order_from_cart st u).1.orderItems = st.orderItems ++ newItems ∧
      ∀ it ∈ newItems, it.order_id = nextId (st.orders.map (fun o => o.id)) := by
  unfold create_order_from_cart
  split
  · exact ⟨[], [], by simp, by simp, by simp⟩
  · split
    · exact ⟨[], [], by simp, by simp, by simp⟩
    · split
      · exact ⟨[], [], by simp, by simp, by simp⟩
      · exact ⟨_, _, rfl, rfl, mkOrderItems_order_id _ _ _⟩

/-- The selection checkout either leaves the database unchanged or appends
one order row and order items all carrying the fresh order id. -/
theorem create_order_extends (st : DBState) (u : Nat) (ids : List Nat) :
    ∃ newOrders newItems,
      (create_order st u ids).1.orders = st.orders ++ newOrders ∧
      (create_order st u ids).1.orderItems = st.orderItems ++ newItems ∧
      ∀ it ∈ newItems, it.order_id = nextId (st.orders.map (fun o => o.id)) := by
  unfold create_order
  split
  · exact ⟨[], [], by simp, by simp, by simp⟩
  · dsimp only
    split
    · exact ⟨[], [], by simp, by simp, by simp⟩
    · split
      · exact ⟨[], [], by simp, by simp, by simp⟩
      · exact ⟨_, _, rfl, rfl, mkOrderItems_order_id _ _ _⟩

/-- C4: the total amount of an order is the price snapshot sum. At creation,
on both paths, total_amount equals the sum of the price_at_order of the
order items belonging to the new order; and every call of the API surface,
including any later change of the movies table and its prices, preserves
both the total_amount and the order item list (hence every price_at_order)
of every existing order. -/
theorem C4_total_amount_snapshot :
    (∀ st u st2 o ms, OrderRefsWF st →
      create_order_from_cart st u = (st2, Except.ok (o, ms)) →
      o.total_amount = sumPriceAtOrder st2 o.id) ∧
    (∀ st u ids st2 o ms, OrderRefsWF st →
      create_order st u ids = (st2, Except.ok (o, ms)) →
      o.total_amount = sumPriceAtOrder st2 o.id) ∧
    (∀ st c, ∀ o ∈ st.orders,
      ∃ o2 ∈ (applyCall st c).orders,
        o2.id = o.id ∧ o2.total_amount = o.total_amount ∧
        orderItemsFor (applyCall st c) o.id = orderItemsFor st o.id) := by
  refine ⟨?_, ?_, ?_⟩
  · intro st u st2 o ms hwf h
    unfold create_order_from_cart at h
    split at h
    · injection h with h1 h2
      exact Except.noConfusion h2
    · split at h
      · injection h with h1 h2
        exact Except.noConfusion h2
      · split at h
        · injection h with h1 h2
          exact Except.noConfusion h2
        · injection h with h1 h2
          injection h2 with h3
          injection h3 with h4 h5
          subst h1
          subst h4
          unfold sumPriceAtOrder orderItemsFor
          dsimp only
          rw [List.filter_append]
          rw [filter_order_id_nil _ _ (fun it hit => ?_), List.nil_append,
            filter_order_id_self _ _ (mkOrderItems_order_id _ _ _),
            mkOrderItems_prices]
          obtain ⟨o3, ho3, hid⟩ := hwf it hit
          rw [hid]
          exact (mem_lt_nextId _ _ (List.mem_map_of_mem _ ho3)).ne
  · intro st u ids st2 o ms hwf h
    unfold create_order at h
    split at h
    · injection h with h1 h2
      exact Except.noConfusion h2
    · dsimp only at h
      split at h
      · injection h with h1 h2
        exact Except.noConfusion h2
      · split at h
        · injection h with h1 h2
          exact Except.noConfusion h2
        · injection h with h1 h2
          injection h2 with h3
          injection h3 with h4 h5
          subst h1
          subst h4
          unfold sumPriceAtOrder orderItemsFor
          dsimp only
          rw [List.filter_append]
          rw [filter_order_id_nil _ _ (fun it hit => ?_), List.nil_append,
            filter_order_id_self _ _ (mkOrderItems_order_id _ _ _),
            mkOrderItems_prices]
          obtain ⟨o3, ho3, hid⟩ := hwf it hit
          rw [hid]
          exact (mem_lt_nextId _ _ (List.mem_map_of_mem _ ho3)).ne
  · intro st c o ho
    cases c with
    | addToCart u m =>
      obtain ⟨h1, h2⟩ := add_to_cart_keeps_orders st u m
      refine ⟨o, ?_, rfl, rfl, ?_⟩
      · simp only [applyCall, h1]
        exact ho
      · unfold orderItemsFor
        simp only [applyCall, h2]
    | removeFromCart u m =>
      obtain ⟨h1, h2⟩ := remove_from_cart_keeps_orders st u m
      refine ⟨o, ?_, rfl, rfl, ?_⟩
      · simp only [applyCall, h1]
        exact ho
      · unfold orderItemsFor
        simp only [applyCall, h2]
    | clearCart u =>
      exact ⟨o, ho, rfl, rfl, rfl⟩
    | fromCart u =>
      obtain ⟨no, ni, h1, h2, hfresh⟩ := create_order_from_cart_extends st u
      refine ⟨o, ?_, rfl, rfl, ?_⟩
      · simp only [applyCall, h1]
        exact List.mem_append_left no ho
      · unfold orderItemsFor
        simp only [applyCall, h2]
        have hni : ni.filter (fun it => it.order_id == o.id) = [] :=
          filter_order_id_nil o.id ni (fun it hit => by
            rw [hfresh it hit]
            exact (mem_lt_nextId _ _ (List.mem_map_of_mem _ ho)).ne')
        rw [List.filter_append, hni, List.append_nil]
    | fromSelection u ids =>
      obtain ⟨no, ni, h1, h2, hfresh⟩ := create_order_extends st u ids
      refine ⟨o, ?_, rfl, rfl, ?_⟩
      · simp only [applyCall, h1]
        exact List.mem_append_left no ho
      · unfold orderItemsFor
        simp only [applyCall, h2]
        have hni : ni.filter (fun it => it.order_id == o.id) = [] :=
          filter_order_id_nil o.id ni (fun it hit => by
            rw [hfresh it hit]
            exact (mem_lt_nextId _ _ (List.mem_map_of_mem _ ho)).ne')
        rw [List.filter_append, hni, List.append_nil]
    | cancel u oid =>
      obtain ⟨h1, h2⟩ := cancel_order_effect st u oid
      rcases h1 with h1 | ⟨ord, h1⟩
      · refine ⟨o, ?_, rfl, rfl, ?_⟩
        · simp only [applyCall, h1]
          exact ho
        · unfold orderItemsFor
          simp only [applyCall, h2]
      · refine ⟨if o.id == ord.id then { o with status := "CANCELED" } else o, ?_, ?_, ?_, ?_⟩
        · simp only [applyCall, h1]
          exact List.mem_map_of_mem _ ho
        · by_cases hcase : o.id == ord.id
          · rw [if_pos hcase]
          · rw [if_neg hcase]
        · by_cases hcase : o.id == ord.id
          · rw [if_pos hcase]
          · rw [if_neg hcase]
        · unfold orderItemsFor
          simp only [applyCall, h2]
    | initiate u oid =>
      have h1 := initiate_payment_keeps_state st u oid
      refine ⟨o, ?_, rfl, rfl, ?_⟩
      · simp only [applyCall, h1]
        exact ho
      · unfold orderItemsFor
        simp only [applyCall, h1]
    | webhook p =>
      obtain ⟨h1, h2⟩ := webhook_keeps_orders st p
      refine ⟨o, ?_, rfl, rfl, ?_⟩
      · simp only [applyCall, h1]
        exact ho
      · unfold orderItemsFor
        simp only [applyCall, h2]
    | updateMovies ms =>
      exact ⟨o, ho, rfl, rfl, rfl⟩

/-- Witness for C4: on stTwoMovies the checkout snapshots the price 500 into
the order total and its item; on stPurchased a later movie table change
leaves the existing order and its item untouched. -/
theorem C4_total_amount_snapshot_witness :
    (Order.mk 1 1 "PAID" 500).total_amount =
      sumPriceAtOrder (create_order_from_cart stTwoMovies 1).1 (Order.mk 1 1 "PAID" 500).id ∧
    ∃ o2 ∈ (applyCall stPurchased (ApiCall.updateMovies [])).orders,
      o2.id = (Order.mk 1 1 "PAID" 700).id ∧
      o2.total_amount = (Order.mk 1 1 "PAID" 700).total_amount ∧
      orderItemsFor (applyCall stPurchased (ApiCall.updateMovies []))
          (Order.mk 1 1 "PAID" 700).id =
        orderItemsFor stPurchased (Order.mk 1 1 "PAID" 700).id :=
  ⟨C4_total_amount_snapshot.1 stTwoMovies 1 (create_order_from_cart stTwoMovies 1).1
      (Order.mk 1 1 "PAID" 500) [Movie.mk 1 "A" 500]
      (fun it hit => absurd hit (by simp [stTwoMovies])) rfl,
   C4_total_amount_snapshot.2.2 stPurchased (ApiCall.updateMovies [])
      (Order.mk 1 1 "PAID" 700) (by decide)⟩

end OnlineCinema
